import Mathlib

/-!
Verification development for the fmp_scraper repository.

The definitions below are a shallow embedding of `fmp_scraper/fetcher.py`
and `fmp_scraper/cli.py`.  Time is modelled in whole seconds as `Int`
(the properties of interest are order-theoretic, so sub-second precision
is not needed); JSON payloads are modelled by the inductive type `JVal`;
the outcome of one HTTP call is injected through the `HttpAttempt` type,
so that the retry loop of `make_api_request` becomes a pure function of
the injected outcome sequence.
-/

namespace FmpScraper

/-- A JSON value, as returned by `response.json()` in the source. -/
inductive JVal : Type where
  | jnull : JVal
  | jbool : Bool → JVal
  | jnum : Int → JVal
  | jstr : String → JVal
  | jarr : List JVal → JVal
  | jobj : List (String × JVal) → JVal

/-- Python truthiness (`bool(x)`) on the modelled JSON values: `None`,
`False`, `0`, the empty string, the empty list and the empty dict are
falsy, everything else is truthy. -/
def JVal.truthy : JVal → Bool
  | .jnull => false
  | .jbool b => b
  | .jnum n => n != 0
  | .jstr s => s != ""
  | .jarr xs => !xs.isEmpty
  | .jobj fs => !fs.isEmpty

/-- Truthiness of an optional payload: `None` (modelled as `Option.none`)
is falsy, cf. `if not data:` in the source. -/
def truthyO : Option JVal → Bool
  | none => false
  | some j => j.truthy

/-- The check `isinstance(data, dict) and "Error Message" in data`
(fetcher.py line 176). -/
def isApiErrorDict : JVal → Bool
  | .jobj fs => fs.any (fun f => f.1 == "Error Message")
  | _ => false

/-- The outcome of one call to `requests.get` inside `make_api_request`:
either the server returned a response with a status code and a parsed
JSON body, or the call raised a network-level
`requests.exceptions.RequestException` before a response existed. -/
inductive HttpAttempt : Type where
  | response : Nat → JVal → HttpAttempt
  | netError : HttpAttempt

/-- Model of `response.raise_for_status()`: it raises `HTTPError` exactly for the
client- and server-error status ranges 400-599. -/
def raisesForStatus (status : Nat) : Bool :=
  400 ≤ status && status < 600

/-- Observable tally of one run of the retry loop of `make_api_request`
(fetcher.py lines 157-200): the returned value, the number of attempts
performed (iterations of `for attempt in range(max_retries)` that were
entered), the number of backoff waits (`time.sleep` in the two `except`
branches), and the number of calls to `rate_limiter.add_request()`. -/
structure ExecTally : Type where
  result : Option JVal
  attempts : Nat
  backoffWaits : Nat
  addRequestCalls : Nat

/-- The retry loop of `make_api_request` (fetcher.py lines 157-200).
`outcomes i` is the injected outcome of the HTTP call made on attempt
index `i`; `fuel` is the number of remaining iterations of
`for attempt in range(max_retries)`.  Per attempt the source:
calls `rate_limiter.wait_if_needed()`, performs the GET; if the GET
raised a network error it sleeps (backoff) and continues — note that
`rate_limiter.add_request()` on line 167 is NOT reached in that case;
otherwise it records the request, then `raise_for_status`:
status 429 sleeps (backoff) and continues, any other error status
returns `None` immediately; a non-error response returns `None` when
the body is a dict carrying an "Error Message" field and otherwise
returns the parsed body.  Falling out of the loop returns `None`. -/
def make_api_request_loop (outcomes : Nat → HttpAttempt) :
    Nat → Nat → ExecTally
  | _, 0 => ⟨none, 0, 0, 0⟩
  | attempt, fuel + 1 =>
    match outcomes attempt with
    | .netError =>
      let t := make_api_request_loop outcomes (attempt + 1) fuel
      ⟨t.result, t.attempts + 1, t.backoffWaits + 1, t.addRequestCalls⟩
    | .response status body =>
      if raisesForStatus status then
        if status = 429 then
          let t := make_api_request_loop outcomes (attempt + 1) fuel
          ⟨t.result, t.attempts + 1, t.backoffWaits + 1, t.addRequestCalls + 1⟩
        else
          ⟨none, 1, 0, 1⟩
      else
        if isApiErrorDict body then ⟨none, 1, 0, 1⟩
        else ⟨some body, 1, 0, 1⟩

/-- Model of `make_api_request` (fetcher.py lines 126-200): when no API key is
available the function returns `None` before the loop; otherwise it runs
the retry loop for `max_retries` attempts. -/
def make_api_request (hasApiKey : Bool) (outcomes : Nat → HttpAttempt)
    (max_retries : Nat) : ExecTally :=
  if hasApiKey then make_api_request_loop outcomes 0 max_retries
  else ⟨none, 0, 0, 0⟩

/-- Seconds in a calendar day; `timedelta.days` counts multiples of it. -/
def secondsPerDay : Int := 86400

/-- The state of `RateLimiter` (fetcher.py lines 30-99).  Timestamps are
wall-clock times in whole seconds. -/
structure RateLimiter : Type where
  requests_per_min : Nat
  requests_per_day : Nat
  daily_request_count : Nat
  minute_request_timestamps : List Int
  day_start_time : Int

/-- Python `min(list)` — raises `ValueError` on an empty list, which the
callers below surface through `Except`. -/
def listMin : List Int → Option Int
  | [] => none
  | x :: xs =>
    match listMin xs with
    | none => some x
    | some m => some (min x m)

/-- Model of `RateLimiter._reset_if_new_day` (fetcher.py lines 42-47): the counter
is reset when `(now - self.day_start_time).days > 0`; Python
`timedelta.days` is the floor of the elapsed seconds divided by 86400,
modelled by `Int.fdiv`. -/
def reset_if_new_day (now : Int) (st : RateLimiter) : RateLimiter :=
  if (now - st.day_start_time).fdiv secondsPerDay > 0 then
    { st with daily_request_count := 0, day_start_time := now }
  else st

/-- Model of `RateLimiter._clean_old_timestamps` (fetcher.py lines 49-54): keep
only timestamps strictly newer than one minute ago. -/
def clean_old_timestamps (now : Int) (st : RateLimiter) : RateLimiter :=
  { st with minute_request_timestamps :=
      st.minute_request_timestamps.filter (fun ts => now - 60 < ts) }

/-- Model of `RateLimiter.wait_if_needed` (fetcher.py lines 56-88), returning the
new state together with the deterministic rate-limit wait in seconds
(0 when the call proceeds at once).  The final
`time.sleep(random.uniform(0.1, 0.5))` jitter of line 88 is not part of
the returned wait: it is a pacing delay applied on every call, not a
quota-driven wait.  All `datetime.now()` reads during one call are
modelled as the single instant `now`, except after a sleep, where the
clock has advanced by the slept amount.  `min([])` raising `ValueError`
is surfaced as `Except.error`. -/
def wait_if_needed (now : Int) (st : RateLimiter) :
    Except String (RateLimiter × Int) :=
  let st1 := reset_if_new_day now st
  let st2 := clean_old_timestamps now st1
  if st2.requests_per_day ≤ st2.daily_request_count then
    let tomorrow := (now.fdiv secondsPerDay + 1) * secondsPerDay
    let sleep_time := tomorrow - now + 10
    .ok ({ st2 with daily_request_count := 0,
                    minute_request_timestamps := [],
                    day_start_time := now + sleep_time }, sleep_time)
  else if st2.requests_per_min ≤ st2.minute_request_timestamps.length then
    match listMin st2.minute_request_timestamps with
    | none => .error "ValueError: min() arg is an empty sequence"
    | some oldest =>
      let seconds_since_oldest := now - oldest
      if seconds_since_oldest < 60 then
        let wait_time := 60 - seconds_since_oldest + 1
        .ok ({ st2 with minute_request_timestamps := [now + wait_time] },
             wait_time)
      else
        .ok (clean_old_timestamps now st2, 0)
  else
    .ok (st2, 0)

/-- Model of `RateLimiter.add_request` (fetcher.py lines 90-99): append the
current timestamp and bump the daily counter. -/
def add_request (now : Int) (st : RateLimiter) : RateLimiter :=
  { st with
    minute_request_timestamps := st.minute_request_timestamps ++ [now]
    daily_request_count := st.daily_request_count + 1 }

/-- The number of recorded requests inside the rolling 60-second window
ending at `now` (the timestamps strictly newer than `now - 60`). -/
def windowCount (now : Int) (st : RateLimiter) : Nat :=
  (st.minute_request_timestamps.filter (fun ts => now - 60 < ts)).length

/-- The wall-clock calendar date of a time, as a day index.  This is the
specification-side notion used by the spec sentence "reset when a new
calendar day is observed"; the epoch is taken at a local midnight, so
the date advances exactly at multiples of 86400 seconds. -/
def calendarDate (t : Int) : Int := t.fdiv secondsPerDay

/-- Does `p` occur at the head of `s`? -/
def leadsWith : List Char → List Char → Bool
  | [], _ => true
  | _ :: _, [] => false
  | p :: ps, x :: xs => p == x && leadsWith ps xs

/-- Does `pat` occur as a contiguous segment of `s`?  (Python
`pat in s` on strings.) -/
def containsSeg (pat : List Char) : List Char → Bool
  | [] => pat.isEmpty
  | c :: xs => leadsWith pat (c :: xs) || containsSeg pat xs

/-- Replacement of every non-overlapping occurrence of `pat` (leftmost
first) by `rep`, as Python `str.replace` and `str.format` do; the fuel
argument is the length of the remaining input, which bounds the number
of steps. -/
def replaceSegAux (pat rep : List Char) : Nat → List Char → List Char
  | 0, s => s
  | fuel + 1, s =>
    match s with
    | [] => []
    | c :: xs =>
      if leadsWith pat s && !pat.isEmpty then
        rep ++ replaceSegAux pat rep fuel (s.drop pat.length)
      else c :: replaceSegAux pat rep fuel xs

/-- String-level segment containment. -/
def strContainsSeg (pat s : String) : Bool := containsSeg pat.data s.data

/-- String-level replacement of every occurrence of `pat` by `rep`. -/
def strReplace (s pat rep : String) : String :=
  ⟨replaceSegAux pat.data rep.data s.data.length s.data⟩

/-- Split at a single separator character, keeping empty pieces, as
`str.split(sep)` does on the date formats handled below. -/
def splitOnChar (sep : Char) : List Char → List (List Char)
  | [] => [[]]
  | c :: xs =>
    let r := splitOnChar sep xs
    if c == sep then [] :: r
    else
      match r with
      | [] => [[c]]
      | h :: t => (c :: h) :: t

/-- String-level single-character split. -/
def strSplitOnChar (sep : Char) (s : String) : List String :=
  (splitOnChar sep s.data).map String.mk

/-- ASCII lowercasing (`str.lower` on the ASCII column names and period
strings the source handles). -/
def strToLower (s : String) : String := ⟨s.data.map Char.toLower⟩

/-- Numeric value of a list of decimal digit characters. -/
def digitsToNat (l : List Char) : Nat :=
  l.foldl (fun a c => a * 10 + (c.toNat - 48)) 0

/-- Parse of a nonempty all-digit string. -/
def parseNatField (s : String) : Option Nat :=
  if !s.data.isEmpty && s.data.all Char.isDigit then some (digitsToNat s.data)
  else none

/-- Day count since 1970-01-01 of a proleptic Gregorian calendar date
(the standard civil-from-days arithmetic that `datetime` date
subtraction realizes). -/
def daysFromCivil (y m d : Int) : Int :=
  let yAdj := if m ≤ 2 then y - 1 else y
  let era := (if 0 ≤ yAdj then yAdj else yAdj - 399).fdiv 400
  let yoe := yAdj - era * 400
  let mp := (m + 9) % 12
  let doy := (153 * mp + 2).fdiv 5 + d - 1
  let doe := yoe * 365 + yoe.fdiv 4 - yoe.fdiv 100 + doy
  era * 146097 + doe - 719468

/-- Parse of a `YYYY-MM-DD` calendar date into epoch day number; `none`
models a parse failure (`strptime` / `to_datetime` raising). -/
def parseCivil (s : String) : Option Int :=
  match strSplitOnChar (Char.ofNat 45) s with
  | [ys, ms, ds] =>
    match parseNatField ys, parseNatField ms, parseNatField ds with
    | some y, some m, some d =>
      if 1 ≤ m && m ≤ 12 && 1 ≤ d && d ≤ 31 then
        some (daysFromCivil (Int.ofNat y) (Int.ofNat m) (Int.ofNat d))
      else none
    | _, _, _ => none
  | _ => none

/-- Parse of an `HH:MM:SS` clock time into seconds past midnight. -/
def parseClock (s : String) : Option Int :=
  match strSplitOnChar (Char.ofNat 58) s with
  | [hs, ms, ss] =>
    match parseNatField hs, parseNatField ms, parseNatField ss with
    | some h, some m, some sec =>
      if h ≤ 23 && m ≤ 59 && sec ≤ 59 then
        some (Int.ofNat (h * 3600 + m * 60 + sec))
      else none
    | _, _, _ => none
  | _ => none

/-- Model of `pd.to_datetime` on the ISO-like strings this API returns:
`YYYY-MM-DD`, optionally followed by ` HH:MM:SS`, mapped to seconds
since the epoch.  `none` models `to_datetime` raising on an unparseable
entry; other calendar formats accepted by pandas are not produced by the
modelled endpoints. -/
def parseDateTime (s : String) : Option Int :=
  match strSplitOnChar (Char.ofNat 32) s with
  | [d] => (parseCivil d).map (fun n => n * secondsPerDay)
  | [d, t] =>
    match parseCivil d, parseClock t with
    | some n, some sec => some (n * secondsPerDay + sec)
    | _, _ => none
  | _ => none

/-- One row of a pandas DataFrame built from a list of JSON records. -/
abbrev Row := List (String × JVal)

/-- Model of `pd.DataFrame(x)` restricted to the payload shapes the
modelled endpoints produce: a (possibly empty) JSON array of records.
Any other input shape is not produced by those endpoints and is mapped
to an `Except.error`. -/
def pdDataFrame : JVal → Except String (List Row)
  | .jarr xs =>
    xs.mapM (fun x =>
      match x with
      | .jobj fs => .ok fs
      | _ => .error "unmodelled DataFrame row shape")
  | _ => .error "unmodelled DataFrame input shape"

/-- Python membership `k in x`, for the payload values that can reach
the `"historical" not in data` check (`x` truthy): dict tests key
membership, list tests element membership, string tests substring
containment; numbers and booleans raise `TypeError`. -/
def pyContains (j : JVal) (k : String) : Except String Bool :=
  match j with
  | .jobj fs => .ok (fs.any (fun f => f.1 == k))
  | .jarr xs =>
    .ok (xs.any (fun x =>
      match x with
      | .jstr s => s == k
      | _ => false))
  | .jstr s => .ok (strContainsSeg k s)
  | _ => .error "TypeError: argument is not iterable"

/-- Lookup of a field of a JSON object (`data[key]` on a dict). -/
def getField (j : JVal) (k : String) : Option JVal :=
  match j with
  | .jobj fs => (fs.find? (fun f => f.1 == k)).map (fun f => f.2)
  | _ => none

/-- The date value carried by a row, if any. -/
def rowDate (r : Row) : Option JVal :=
  (r.find? (fun f => f.1 == "date")).map (fun f => f.2)

/-- Model of the steps
`df["date"] = pd.to_datetime(df["date"]); df.set_index("date", ...)`:
each row's "date" field is parsed and becomes the index entry, and the
column itself is consumed by `set_index`.  On a frame without a "date"
column — in particular the empty frame built from `[]`, which has no
columns at all — the column access `df["date"]` raises `KeyError`.
Frames in which only some rows carry the field (pandas would fill `NaT`)
are not produced by the modelled endpoints and are mapped to an error. -/
def setDateIndex (rows : List Row) : Except String (List (Int × Row)) :=
  if !rows.any (fun r => (rowDate r).isSome) then
    .error "KeyError: date"
  else
    rows.mapM (fun r =>
      match rowDate r with
      | some (.jstr s) =>
        match parseDateTime s with
        | some t => .ok (t, r.filter (fun f => f.1 != "date"))
        | none => .error "ValueError: unparseable date"
      | _ => .error "unmodelled date column entry")

/-- Model of `df.sort_index(inplace=True)`: sort the rows by their date
index, ascending.  The source's sort key is exactly the index; the model
uses insertion sort, which agrees with it up to the relative order of
rows with equal dates. -/
def sortByDate (rows : List (Int × Row)) : List (Int × Row) :=
  List.insertionSort (fun p q => p.1 ≤ q.1) rows

/-- Model of `df.rename(columns=m)`: rename every column of every row. -/
def renameColumns (m : String → String) (rows : List (Int × Row)) :
    List (Int × Row) :=
  rows.map (fun p => (p.1, p.2.map (fun f => (m f.1, f.2))))

/-- The rename map of `fetch_historical_price` and `fetch_crypto_price`
(fetcher.py lines 254-261). -/
def ohlcvRename (k : String) : String :=
  if k == "open" then "Open"
  else if k == "high" then "High"
  else if k == "low" then "Low"
  else if k == "close" then "Close"
  else if k == "volume" then "Volume"
  else if k == "adjClose" then "Adj Close"
  else k

/-- The rename map of `fetch_intraday_prices` (fetcher.py lines
332-338); it has no `adjClose` entry. -/
def intradayRename (k : String) : String :=
  if k == "open" then "Open"
  else if k == "high" then "High"
  else if k == "low" then "Low"
  else if k == "close" then "Close"
  else if k == "volume" then "Volume"
  else k

/-- Model of the normalization in `fetch_historical_price` (fetcher.py
lines 203-264), with the value returned by `make_api_request` injected
as `data`.  The source: `if not data or "historical" not in data:
return None`, then builds a DataFrame from `data["historical"]`, parses
and indexes the date column, sorts by it and renames the price columns.
No deduplication step is performed anywhere in the function. -/
def fetch_historical_price (data : Option JVal) :
    Except String (Option (List (Int × Row))) :=
  match data with
  | none => .ok none
  | some j =>
    if !j.truthy then .ok none
    else
      match pyContains j "historical" with
      | .error e => .error e
      | .ok hasHist =>
        if !hasHist then .ok none
        else
          match pdDataFrame ((getField j "historical").getD .jnull) with
          | .error e => .error e
          | .ok rows =>
            match setDateIndex rows with
            | .error e => .error e
            | .ok indexed =>
              .ok (some (renameColumns ohlcvRename (sortByDate indexed)))

/-- The fixed list of admissible intraday intervals (fetcher.py line
293). -/
def valid_intervals : List String :=
  ["1min", "5min", "15min", "30min", "1hour", "4hour"]

/-- Python truthiness of an optional string argument (`not from_date`):
absent or empty is falsy. -/
def strTruthy : Option String → Bool
  | none => false
  | some s => s != ""

/-- Model of `fetch_intraday_prices` (fetcher.py lines 267-341), with
the API response injected as `data`.  Missing dates or an invalid
interval return `None` before any request is made; a falsy response
returns `None`; an empty frame is detected by `df.empty` and returns
`None` before the date column is touched; otherwise the frame is
date-indexed, sorted and renamed. -/
def fetch_intraday_prices (interval : String)
    (from_date to_date : Option String) (data : Option JVal) :
    Except String (Option (List (Int × Row))) :=
  if !strTruthy from_date || !strTruthy to_date then .ok none
  else if !valid_intervals.contains interval then .ok none
  else
    match data with
    | none => .ok none
    | some j =>
      if !j.truthy then .ok none
      else
        match pdDataFrame j with
        | .error e => .error e
        | .ok rows =>
          if rows.isEmpty then .ok none
          else
            match setDateIndex rows with
            | .error e => .error e
            | .ok indexed =>
              .ok (some (renameColumns intradayRename (sortByDate indexed)))

/-- An outbound request: the endpoint path passed to `make_api_request`
(relative to the base URL) and the query parameters (before the API key
is attached). -/
structure RequestDescriptor : Type where
  endpoint : String
  params : List (String × String)

/-- Model of the lines
`if "\x7bticker\x7d" in endpoint: endpoint = endpoint.format(ticker=ticker)`
used by the statement fetchers (fetcher.py lines 637-638, 715-716,
793-794): every occurrence of the placeholder is replaced. -/
def pyFormatTicker (endpoint ticker : String) : String :=
  if strContainsSeg "\x7bticker\x7d" endpoint then
    strReplace endpoint "\x7bticker\x7d" ticker
  else endpoint

/-- The primary request issued by `fetch_company_profile` (fetcher.py
lines 400-405).  The source passes the literal string
`"profile/\x7bticker\x7d"` as the endpoint with an empty params dict
and — unlike the statement fetchers — never calls `.format(...)` on it,
so the ticker argument does not reach the request. -/
def fetch_company_profile_primary_request (_ticker : String) :
    RequestDescriptor :=
  { endpoint := "profile/\x7bticker\x7d", params := [] }

/-- The secondary (fallback) request issued by `fetch_company_profile`
(fetcher.py lines 410-414). -/
def fetch_company_profile_secondary_request (ticker : String) :
    RequestDescriptor :=
  { endpoint := "profile", params := [("symbol", ticker)] }

/-- The tail of `fetch_company_profile` after the fallback has been
resolved (fetcher.py lines 416-428): falsy data yields `None`, an empty
frame yields `None`, otherwise the frame is returned. -/
def profile_postprocess (data : Option JVal) :
    Except String (Option (List Row)) :=
  match data with
  | none => .ok none
  | some j =>
    if !j.truthy then .ok none
    else
      match pdDataFrame j with
      | .error e => .error e
      | .ok rows =>
        if rows.isEmpty then .ok none
        else .ok (some rows)

/-- Model of `fetch_company_profile` (fetcher.py lines 388-428) with
the two possible API responses injected: `primary` is what the primary
request would return, `secondary` what the fallback request would
return.  The returned flag records whether the secondary request was
issued — the single `make_api_request` call guarded by `if not data:`
on lines 407-414, taken exactly when the primary response is falsy. -/
def fetch_company_profile (primary secondary : Option JVal) :
    Bool × Except String (Option (List Row)) :=
  let data := if truthyO primary then primary else secondary
  (!truthyO primary, profile_postprocess data)

/-- The primary request of `fetch_income_statement` (fetcher.py lines
626-638): a path-parameterized endpoint for the known periods, a
query-parameterized one otherwise, with the `\x7bticker\x7d`
placeholder substituted when present. -/
def fetch_income_statement_primary_request (ticker period : String)
    (limit : Nat) : RequestDescriptor :=
  let ep :=
    if strToLower period == "annual" then
      ("income-statement/\x7bticker\x7d", [("limit", toString limit)])
    else if strToLower period == "quarter" then
      ("income-statement/\x7bticker\x7d",
       [("period", "quarter"), ("limit", toString limit)])
    else
      ("income-statement", [("symbol", ticker), ("limit", toString limit)])
  { endpoint := pyFormatTicker ep.1 ticker, params := ep.2 }

/-- The secondary (fallback) request of `fetch_income_statement`
(fetcher.py lines 648-658). -/
def fetch_income_statement_secondary_request (ticker period : String)
    (limit : Nat) : RequestDescriptor :=
  let base := [("symbol", ticker), ("limit", toString limit)]
  { endpoint := "income-statement",
    params :=
      if strToLower period == "quarter" then base ++ [("period", "quarter")]
      else base }

/-- A normalized financial-statement table: indexed and sorted by the
"date" column when that column exists, kept as plain rows otherwise
(fetcher.py lines 680-682). -/
inductive StatementFrame : Type where
  | byDate : List (Int × Row) → StatementFrame
  | plain : List Row → StatementFrame

/-- Containment test `"date" in col.lower()` (fetcher.py line 672). -/
def containsDateKey (k : String) : Bool :=
  strContainsSeg "date" (strToLower k)

/-- Model of `df[col] = pd.to_datetime(df[col])` applied to every
column whose lowercased name contains "date" (fetcher.py lines
672-674): each such field must hold a parseable date string; entries of
other types (pandas would interpret numbers as epochs, or raise) are
not produced by the modelled endpoints and are mapped to an error. -/
def parseDateColumns (r : Row) : Except String Row :=
  r.mapM (fun (f : String × JVal) =>
    if containsDateKey f.1 then
      match f.2 with
      | .jstr s =>
        match parseDateTime s with
        | some t => .ok (f.1, JVal.jnum t)
        | none => .error "ValueError: unparseable date"
      | _ => .error "unmodelled date column entry"
    else .ok f)

/-- The statement normalization shared by the three statement fetchers
(fetcher.py lines 664-685): an empty frame yields `None`; otherwise the
date-bearing columns are parsed, a "symbol" column holding the ticker
is appended, and when a "date" column exists it becomes the sorted
index. -/
def statement_normalize (ticker : String) (rows : List Row) :
    Except String (Option StatementFrame) :=
  if rows.isEmpty then .ok none
  else
    match rows.mapM parseDateColumns with
    | .error e => .error e
    | .ok parsed =>
      let withSym := parsed.map (fun r => r ++ [("symbol", JVal.jstr ticker)])
      if withSym.any (fun r => r.any (fun f => f.1 == "date")) then
        match
          withSym.mapM (fun (r : Row) =>
            match rowDate r with
            | some (.jnum t) =>
              (Except.ok (t, r.filter (fun f => f.1 != "date")) :
                Except String (Int × Row))
            | _ => Except.error "unmodelled date column entry") with
        | .error e => .error e
        | .ok indexed => .ok (some (.byDate (sortByDate indexed)))
      else .ok (some (.plain withSym))

/-- The tail of `fetch_income_statement` after the fallback has been
resolved (fetcher.py lines 660-685): falsy data yields `None`,
otherwise the frame is built and normalized by `statement_normalize`. -/
def income_postprocess (ticker : String) (data : Option JVal) :
    Except String (Option StatementFrame) :=
  match data with
  | none => .ok none
  | some j =>
    if !j.truthy then .ok none
    else
      match pdDataFrame j with
      | .error e => .error e
      | .ok rows => statement_normalize ticker rows

/-- Model of `fetch_income_statement` (fetcher.py lines 610-685) with
the two possible API responses injected, analogous to
`fetch_company_profile`: the flag records whether the fallback request
(lines 647-658) was issued, taken exactly when the primary response is
falsy. -/
def fetch_income_statement (ticker : String)
    (primary secondary : Option JVal) :
    Bool × Except String (Option StatementFrame) :=
  let data := if truthyO primary then primary else secondary
  (!truthyO primary, income_postprocess ticker data)

/-- The intraday range clamp in `handle_fetch` (cli.py lines 290-299):
with intraday requested and both dates present, the dates are parsed by
`strptime` (modelled as epoch day numbers, on which `(to - from).days`
of midnight datetimes is exactly the difference) and, when the range
spans more than 7 days, the from-date is replaced by the date 7 days
before the to-date. -/
def handle_fetch_clamp (include_intraday : Bool) (from_day to_day : Int) :
    Int × Int :=
  if include_intraday then
    let date_diff := to_day - from_day
    if date_diff > 7 then (to_day - 7, to_day) else (from_day, to_day)
  else (from_day, to_day)

/-- Did the HTTP call return a response at all (as opposed to raising a
network-level error)?  `rate_limiter.add_request()` on fetcher.py line
167 runs exactly in this case. -/
def isResponse : HttpAttempt → Bool
  | .response _ _ => true
  | .netError => false

/-- The number of attempts among `start, start+1, ..., start+n-1` whose
HTTP call returned a response. -/
def countResponses (outcomes : Nat → HttpAttempt) (start : Nat) :
    Nat → Nat
  | 0 => 0
  | n + 1 =>
    (if isResponse (outcomes start) then 1 else 0) +
      countResponses outcomes (start + 1) n

/-- A deterministic injected outcome sequence: 429, 429, then success
with a one-element array payload. -/
def seq429x2 : Nat → HttpAttempt
  | 0 => .response 429 .jnull
  | 1 => .response 429 .jnull
  | _ => .response 200 (.jarr [.jnum 7])

/-- A deterministic injected outcome sequence answering 429 forever. -/
def seq429 : Nat → HttpAttempt := fun _ => .response 429 .jnull

/-- A deterministic injected outcome sequence raising a network error
on every attempt. -/
def seqNetError : Nat → HttpAttempt := fun _ => .netError

/-- A historical-price payload whose "historical" array holds two
records with the same date. -/
def dupDatePayload : JVal :=
  .jobj [("historical", .jarr [
    .jobj [("date", .jstr "2024-01-02"), ("close", .jnum 100)],
    .jobj [("date", .jstr "2024-01-02"), ("close", .jnum 101)]])]

/-- A nonempty profile-like payload (one record). -/
def oneRecordPayload : JVal := .jarr [.jobj [("a", .jnum 1)]]

instance : IsTotal (Int × Row) (fun p q => p.1 ≤ q.1) :=
  ⟨fun a b => le_total a.1 b.1⟩

instance : IsTrans (Int × Row) (fun p q => p.1 ≤ q.1) :=
  ⟨fun _ _ _ h1 h2 => le_trans h1 h2⟩

/-- Reduction of a conditional whose Bool condition has been rewritten
to `true`. -/
theorem ite_true_eq {α : Type} (a b : α) :
    (if (true = true) then a else b) = a := rfl

/-- Reduction of a conditional whose Bool condition has been rewritten
to `false`. -/
theorem ite_false_eq {α : Type} (a b : α) :
    (if (false = true) then a else b) = b := rfl

/-- C1: with `maxRetries = 3`, an injected outcome sequence of
[429, 429, success] makes `make_api_request` perform exactly 2 backoff
waits over 3 attempts and return the parsed payload, and an injected
sequence of [429, 429, 429] makes it return the failure result `None`
after exactly 3 attempts. -/
theorem make_api_request_retry_behaviour
    (outcomes outcomes2 : Nat → HttpAttempt) (b0 b1 b : JVal) (s : Nat)
    (h0 : outcomes 0 = .response 429 b0)
    (h1 : outcomes 1 = .response 429 b1)
    (h2 : outcomes 2 = .response s b)
    (hs : s < 400) (hb : isApiErrorDict b = false)
    (ball : Nat → JVal)
    (hall : ∀ i, i < 3 → outcomes2 i = .response 429 (ball i)) :
    make_api_request true outcomes 3 =
      { result := some b, attempts := 3, backoffWaits := 2,
        addRequestCalls := 3 }
  ∧ (make_api_request true outcomes2 3).result = none
  ∧ (make_api_request true outcomes2 3).attempts = 3 := by
  have h429 : raisesForStatus 429 = true := by decide
  have hrf : raisesForStatus s = false := by
    unfold raisesForStatus
    have : decide (400 ≤ s) = false := by
      rw [decide_eq_false_iff_not]
      omega
    rw [this]
    rfl
  have e2 : make_api_request_loop outcomes 2 1 = ⟨some b, 1, 0, 1⟩ := by
    unfold make_api_request_loop
    rw [h2]
    dsimp only
    rw [hrf, hb]
    simp
  have e1 : make_api_request_loop outcomes 1 2 = ⟨some b, 2, 1, 2⟩ := by
    unfold make_api_request_loop
    rw [h1]
    dsimp only
    rw [h429]
    simp [e2]
  have e0 : make_api_request_loop outcomes 0 3 = ⟨some b, 3, 2, 3⟩ := by
    unfold make_api_request_loop
    rw [h0]
    dsimp only
    rw [h429]
    simp [e1]
  have f2 : make_api_request_loop outcomes2 2 1 = ⟨none, 1, 1, 1⟩ := by
    unfold make_api_request_loop
    rw [hall 2 (by omega)]
    dsimp only
    rw [h429]
    simp [make_api_request_loop]
  have f1 : make_api_request_loop outcomes2 1 2 = ⟨none, 2, 2, 2⟩ := by
    unfold make_api_request_loop
    rw [hall 1 (by omega)]
    dsimp only
    rw [h429]
    simp [f2]
  have f0 : make_api_request_loop outcomes2 0 3 = ⟨none, 3, 3, 3⟩ := by
    unfold make_api_request_loop
    rw [hall 0 (by omega)]
    dsimp only
    rw [h429]
    simp [f1]
  refine ⟨?_, ?_, ?_⟩
  · show make_api_request_loop outcomes 0 3 = _
    rw [e0]
  · show (make_api_request_loop outcomes2 0 3).result = none
    rw [f0]
  · show (make_api_request_loop outcomes2 0 3).attempts = 3
    rw [f0]

/-- C1 witness: the two concrete injected sequences. -/
theorem make_api_request_retry_behaviour_witness :
    make_api_request true seq429x2 3 =
      { result := some (.jarr [.jnum 7]), attempts := 3, backoffWaits := 2,
        addRequestCalls := 3 }
  ∧ (make_api_request true seq429 3).result = none
  ∧ (make_api_request true seq429 3).attempts = 3 :=
  make_api_request_retry_behaviour seq429x2 seq429 .jnull .jnull
    (.jarr [.jnum 7]) 200 rfl rfl rfl (by decide) rfl (fun _ => .jnull)
    (fun _ _ => rfl)

/-- C4 (amended): `add_request` is recorded exactly once for every
attempt whose HTTP call returned a response (success or HTTP error
status), and not at all for attempts that ended in a network-level
error, because `rate_limiter.add_request()` on fetcher.py line 167 is
skipped when `requests.get` raises. -/
theorem add_request_counts_responses (outcomes : Nat → HttpAttempt) :
    ∀ fuel start,
      (make_api_request_loop outcomes start fuel).addRequestCalls =
        countResponses outcomes start
          (make_api_request_loop outcomes start fuel).attempts := by
  intro fuel
  induction fuel with
  | zero => intro start; rfl
  | succ n ih =>
    intro start
    unfold make_api_request_loop
    cases hc : outcomes start with
    | netError =>
      dsimp only
      rw [countResponses, hc]
      dsimp only [isResponse]
      rw [ih (start + 1)]
      simp
    | response s b =>
      dsimp only
      cases hr : raisesForStatus s with
      | true =>
        rw [ite_true_eq]
        by_cases h429 : s = 429
        · rw [if_pos h429]
          dsimp only
          rw [countResponses, hc]
          dsimp only [isResponse]
          rw [ite_true_eq, ih (start + 1)]
          omega
        · rw [if_neg h429]
          dsimp only
          rw [countResponses, hc]
          simp [isResponse, countResponses]
      | false =>
        rw [ite_false_eq]
        cases hd : isApiErrorDict b with
        | true =>
          rw [ite_true_eq]
          rw [countResponses, hc]
          simp [isResponse, countResponses]
        | false =>
          rw [ite_false_eq]
          rw [countResponses, hc]
          simp [isResponse, countResponses]

/-- C4 counterexample: three attempts all ending in network-level
errors perform 3 attempts but record 0 requests, so `add_request` is
not invoked once per attempt regardless of outcome. -/
theorem add_request_skipped_on_network_error :
    (make_api_request true seqNetError 3).attempts = 3 ∧
    (make_api_request true seqNetError 3).addRequestCalls = 0 :=
  ⟨rfl, rfl⟩

/-- C5: an HTTP error status other than 429 makes the retry loop stop
immediately with the failure result `None` after that single attempt,
whatever fuel remains; and any run that performs a second attempt had a
first outcome that was either a network-level error or a 429 response. -/
theorem fatal_on_other_http_error (outcomes : Nat → HttpAttempt)
    (start fuel : Nat) :
    (∀ s b, outcomes start = .response s b → 400 ≤ s → s < 600 →
        s ≠ 429 →
        make_api_request_loop outcomes start (fuel + 1) =
          { result := none, attempts := 1, backoffWaits := 0,
            addRequestCalls := 1 })
  ∧ (2 ≤ (make_api_request_loop outcomes start (fuel + 1)).attempts →
        outcomes start = .netError ∨
          ∃ b, outcomes start = .response 429 b) := by
  constructor
  · intro s b hsb h4 h6 hne
    unfold make_api_request_loop
    rw [hsb]
    dsimp only
    have hr : raisesForStatus s = true := by
      unfold raisesForStatus
      rw [decide_eq_true h4, decide_eq_true h6]
      rfl
    rw [hr, ite_true_eq]
    rw [if_neg hne]
  · intro hat
    cases hc : outcomes start with
    | netError => exact Or.inl rfl
    | response s b =>
      by_cases h429 : s = 429
      · exact Or.inr ⟨b, by rw [h429]⟩
      · exfalso
        unfold make_api_request_loop at hat
        rw [hc] at hat
        dsimp only at hat
        cases hr : raisesForStatus s with
        | true =>
          rw [hr, ite_true_eq] at hat
          rw [if_neg h429] at hat
          dsimp only at hat
          omega
        | false =>
          rw [hr, ite_false_eq] at hat
          cases hd : isApiErrorDict b with
          | true =>
            rw [hd, ite_true_eq] at hat
            dsimp only at hat
            omega
          | false =>
            rw [hd, ite_false_eq] at hat
            dsimp only at hat
            omega

/-- C5 witness: a 500 response on the first attempt with fuel for three
attempts stops at once with the failure tally. -/
theorem fatal_on_other_http_error_witness :
    make_api_request_loop (fun _ => .response 500 .jnull) 0 3 =
      { result := none, attempts := 1, backoffWaits := 0,
        addRequestCalls := 1 } :=
  (fatal_on_other_http_error (fun _ => .response 500 .jnull) 0 2).1
    500 .jnull rfl (by decide) (by decide) (by decide)

/-- Python `min` of a list returns an element of the list. -/
theorem listMin_mem : ∀ {l : List Int} {m : Int}, listMin l = some m → m ∈ l := by
  intro l
  induction l with
  | nil => intro m h; cases h
  | cons x xs ih =>
    intro m h
    unfold listMin at h
    cases hx : listMin xs with
    | none =>
      rw [hx] at h
      injection h with h2
      rw [← h2]
      exact List.mem_cons_self x xs
    | some m2 =>
      rw [hx] at h
      injection h with h2
      rcases min_choice x m2 with hmin | hmin
      · rw [hmin] at h2
        rw [← h2]
        exact List.mem_cons_self x xs
      · rw [hmin] at h2
        rw [← h2]
        exact List.mem_cons_of_mem x (ih hx)

/-- Invariance of the timestamp list and the quota fields under the
reset-then-clean prefix of `wait_if_needed`. -/
theorem clean_reset_fields (now : Int) (st : RateLimiter) :
    (clean_old_timestamps now (reset_if_new_day now st)).minute_request_timestamps
        = st.minute_request_timestamps.filter (fun ts => now - 60 < ts)
    ∧ (clean_old_timestamps now (reset_if_new_day now st)).requests_per_min
        = st.requests_per_min := by
  unfold reset_if_new_day clean_old_timestamps
  split <;> exact ⟨rfl, rfl⟩

/-- C2: whenever the rolling 60-second window already holds at least
`requests_per_min` recorded timestamps, `wait_if_needed` cannot let the
caller proceed without a wait: every completion of the call carries a
strictly positive wait (either the minute-window wait of lines 79-83 or
the until-tomorrow sleep of lines 62-72). -/
theorem minute_quota_forces_wait (st : RateLimiter) (now : Int)
    (h : st.requests_per_min ≤ windowCount now st) :
    ∀ stR w, wait_if_needed now st = .ok (stR, w) → 0 < w := by
  intro stR w heq
  have hts := (clean_reset_fields now st).1
  have hpm := (clean_reset_fields now st).2
  unfold windowCount at h
  rw [wait_if_needed] at heq
  dsimp only at heq
  split at heq
  · rw [Except.ok.injEq, Prod.mk.injEq] at heq
    obtain ⟨-, h6⟩ := heq
    rw [← h6, secondsPerDay, Int.fdiv_eq_ediv _ (by norm_num)]
    omega
  · split at heq
    · split at heq
      · exact Except.noConfusion heq
      · rename_i hmin
        split at heq
        · rename_i h60
          rw [Except.ok.injEq, Prod.mk.injEq] at heq
          obtain ⟨-, h6⟩ := heq
          omega
        · rename_i h60
          exfalso
          have hm := listMin_mem hmin
          rw [hts] at hm
          have := (List.mem_filter.mp hm).2
          have hlt := of_decide_eq_true this
          omega
    · rename_i hlen
      exact absurd (hpm.symm ▸ (hts.symm ▸ h)) hlen

/-- C2 witness: one recorded timestamp at time 100 with a per-minute
quota of 1 forces a positive wait at time 110. -/
theorem minute_quota_forces_wait_witness : (0 : Int) < 51 :=
  minute_quota_forces_wait ⟨1, 250, 0, [100], 0⟩ 110 (by decide)
    ⟨1, 250, 0, [161], 0⟩ 51 rfl

/-- C3 (amended): `_reset_if_new_day` resets the daily counter exactly
when at least 24 hours (86400 seconds) have elapsed since the day-start
reference, irrespective of calendar-day boundaries, moving the
reference to the current instant; the wall-clock calendar date
advancing does not by itself trigger a reset. -/
theorem reset_if_new_day_iff (now : Int) (st : RateLimiter) :
    reset_if_new_day now st =
      if secondsPerDay ≤ now - st.day_start_time then
        { st with daily_request_count := 0, day_start_time := now }
      else st := by
  unfold reset_if_new_day
  have hiff : (now - st.day_start_time).fdiv secondsPerDay > 0 ↔
      secondsPerDay ≤ now - st.day_start_time := by
    rw [secondsPerDay, Int.fdiv_eq_ediv _ (by norm_num)]
    omega
  exact if_congr hiff rfl rfl

/-- C3 counterexample: with the day-start reference at 23:00 (second
82800 of day 0) and the clock at 01:00 the next day (second 90000), the
calendar date has advanced past the day-start reference, yet
`_reset_if_new_day` leaves the daily counter untouched — the reset is
keyed to 24 elapsed hours, not to the calendar-day boundary. -/
theorem daily_reset_misses_calendar_day :
    calendarDate 82800 < calendarDate 90000 ∧
    reset_if_new_day 90000 ⟨5, 250, 7, [], 82800⟩ = ⟨5, 250, 7, [], 82800⟩ ∧
    (reset_if_new_day 90000 ⟨5, 250, 7, [], 82800⟩).daily_request_count = 7 := by
  refine ⟨by decide, rfl, rfl⟩

/-- A falsy response value normalizes to the absent result in both
postprocessing tails. -/
theorem postprocess_falsy (ticker : String) (d : Option JVal)
    (hd : truthyO d = false) :
    profile_postprocess d = .ok none ∧
    income_postprocess ticker d = .ok none := by
  cases d with
  | none => exact ⟨rfl, rfl⟩
  | some j =>
    unfold truthyO at hd
    dsimp only at hd
    unfold profile_postprocess income_postprocess
    dsimp only
    rw [hd]
    exact ⟨rfl, rfl⟩

/-- C6: for both the company-profile fetch and the income-statement
fetch, the secondary (query-parameterized) request is issued exactly
when the primary response is a failure or an empty payload (falsy), and
only that once; the returned table is built from the primary response
when it is truthy and from the secondary response otherwise, and when
both responses are falsy the result is the absent result `None`. -/
theorem fallback_attempted_exactly_once (ticker : String)
    (p s : Option JVal) :
    ((fetch_company_profile p s).1 = !truthyO p
      ∧ (truthyO p = true →
          fetch_company_profile p s = (false, profile_postprocess p))
      ∧ (truthyO p = false →
          fetch_company_profile p s = (true, profile_postprocess s))
      ∧ (truthyO p = false → truthyO s = false →
          (fetch_company_profile p s).2 = .ok none))
    ∧ ((fetch_income_statement ticker p s).1 = !truthyO p
      ∧ (truthyO p = true →
          fetch_income_statement ticker p s =
            (false, income_postprocess ticker p))
      ∧ (truthyO p = false →
          fetch_income_statement ticker p s =
            (true, income_postprocess ticker s))
      ∧ (truthyO p = false → truthyO s = false →
          (fetch_income_statement ticker p s).2 = .ok none)) := by
  unfold fetch_company_profile fetch_income_statement
  refine ⟨⟨rfl, ?_, ?_, ?_⟩, rfl, ?_, ?_, ?_⟩
  · intro hp
    rw [hp, ite_true_eq]
    rfl
  · intro hp
    rw [hp, ite_false_eq]
    rfl
  · intro hp hs
    rw [hp, ite_false_eq]
    exact (postprocess_falsy ticker s hs).1
  · intro hp
    rw [hp, ite_true_eq]
    rfl
  · intro hp
    rw [hp, ite_false_eq]
    rfl
  · intro hp hs
    rw [hp, ite_false_eq]
    exact (postprocess_falsy ticker s hs).2

/-- C6 witness: a failed primary response and a one-record secondary
response make the profile fetch fall back exactly once and return the
secondary table. -/
theorem fallback_attempted_exactly_once_witness :
    fetch_company_profile none (some oneRecordPayload) =
      (true, profile_postprocess (some oneRecordPayload)) :=
  ((fallback_attempted_exactly_once "AAPL" none
      (some oneRecordPayload)).1).2.2.1 rfl

/-- Sortedness of the insertion-sort model of `df.sort_index`. -/
theorem sortByDate_sorted (l : List (Int × Row)) :
    List.Sorted (fun p q : Int × Row => p.1 ≤ q.1) (sortByDate l) :=
  List.sorted_insertionSort _ l

/-- Column renaming does not disturb the date index, so it preserves
sortedness. -/
theorem renameColumns_sorted (m : String → String)
    (l : List (Int × Row))
    (h : List.Sorted (fun p q : Int × Row => p.1 ≤ q.1) l) :
    List.Sorted (fun p q : Int × Row => p.1 ≤ q.1)
      (renameColumns m l) := by
  unfold renameColumns
  rw [List.Sorted, List.pairwise_map]
  exact h

/-- C7 (amended): every table produced by the historical-price
normalization is ordered ascending — non-strictly — by the date index;
rows with duplicate dates are all retained, because the source sorts by
the index but performs no deduplication. -/
theorem historical_price_sorted (data : Option JVal)
    (rows : List (Int × Row))
    (h : fetch_historical_price data = .ok (some rows)) :
    List.Sorted (fun p q : Int × Row => p.1 ≤ q.1) rows := by
  unfold fetch_historical_price at h
  cases data with
  | none => simp at h
  | some j =>
    split at h
    · simp at h
    · split at h
      · simp at h
      · split at h
        · simp at h
        · split at h
          · simp at h
          · split at h
            · simp at h
            · split at h
              · simp at h
              · rw [Except.ok.injEq, Option.some.injEq] at h
                rw [← h]
                exact renameColumns_sorted _ _ (sortByDate_sorted _)

/-- C7 witness: normalizing a concrete two-record payload yields a
table whose date index is (non-strictly) ascending. -/
theorem historical_price_sorted_witness :
    List.Sorted (fun p q : Int × Row => p.1 ≤ q.1)
      [((1704153600 : Int), [("Close", JVal.jnum 100)]),
       (1704153600, [("Close", JVal.jnum 101)])] :=
  historical_price_sorted (some dupDatePayload) _ rfl

/-- C7 counterexample: a payload holding two records with the same date
normalizes to a table that still holds two rows with that date, so the
result is neither strictly ascending nor one-row-per-date. -/
theorem historical_price_keeps_duplicate_dates :
    fetch_historical_price (some dupDatePayload) =
      .ok (some [(1704153600, [("Close", JVal.jnum 100)]),
                 (1704153600, [("Close", JVal.jnum 101)])])
  ∧ ([((1704153600 : Int), [("Close", JVal.jnum 100)]),
      (1704153600, [("Close", JVal.jnum 101)])].map Prod.fst
        = [1704153600, 1704153600]) :=
  ⟨rfl, rfl⟩

/-- C8: a missing "historical" field (or an absent response) yields the
absent result without an exception, but an empty "historical" array
makes `fetch_historical_price` raise — on the empty frame the column
access `df["date"]` is a `KeyError` — whereas `fetch_intraday_prices`
checks `df.empty` before touching the date column and returns `None`. -/
theorem empty_historical_raises_keyerror :
    fetch_historical_price (some (.jobj [("historical", .jarr [])]))
      = .error "KeyError: date"
  ∧ fetch_historical_price (some (.jobj [("x", .jnum 1)])) = .ok none
  ∧ fetch_historical_price none = .ok none
  ∧ fetch_intraday_prices "1hour" (some "2024-01-01") (some "2024-01-08")
      (some (.jarr [])) = .ok none :=
  ⟨rfl, rfl, rfl, rfl⟩

/-- C9: when intraday data is requested and the parsed date range spans
more than 7 days, `handle_fetch` replaces the from-date so that the
effective range ends at the requested to-date and starts exactly 7 days
before it. -/
theorem intraday_range_clamped (from_day to_day : Int)
    (h : to_day - from_day > 7) :
    handle_fetch_clamp true from_day to_day = (to_day - 7, to_day) ∧
    to_day - (handle_fetch_clamp true from_day to_day).1 = 7 := by
  unfold handle_fetch_clamp
  rw [ite_true_eq]
  dsimp only
  rw [if_pos h]
  exact ⟨rfl, by omega⟩

/-- C9 witness: the spec instance from=2024-01-01, to=2024-02-01
(31 days) clamps to an effective from-date of 2024-01-25, exactly 7
days before the to-date. -/
theorem intraday_range_clamped_witness :
    daysFromCivil 2024 2 1 - daysFromCivil 2024 1 1 = 31
  ∧ handle_fetch_clamp true (daysFromCivil 2024 1 1) (daysFromCivil 2024 2 1)
      = (daysFromCivil 2024 2 1 - 7, daysFromCivil 2024 2 1)
  ∧ daysFromCivil 2024 2 1 - 7 = daysFromCivil 2024 1 25 :=
  ⟨by decide,
   (intraday_range_clamped (daysFromCivil 2024 1 1)
      (daysFromCivil 2024 2 1) (by decide)).1,
   by decide⟩

/-- C10: the endpoint path of the primary company-profile request does
not depend on the requested ticker: the source sends the literal string
"profile/\x7bticker\x7d" — the `.format` substitution performed by the
statement fetchers is absent — so the primary path is identical for any
two tickers and does not contain the ticker, while the income-statement
primary endpoint does substitute the ticker into its path. -/
theorem profile_primary_endpoint_ignores_ticker :
    fetch_company_profile_primary_request "AAPL"
      = fetch_company_profile_primary_request "MSFT"
  ∧ (fetch_company_profile_primary_request "AAPL").endpoint
      = "profile/\x7bticker\x7d"
  ∧ strContainsSeg "AAPL"
      (fetch_company_profile_primary_request "AAPL").endpoint = false
  ∧ (fetch_income_statement_primary_request "AAPL" "annual" 10).endpoint
      = "income-statement/AAPL" :=
  ⟨rfl, rfl, rfl, rfl⟩

end FmpScraper
